import Mathlib

/-!
Verification of `scripts/generate_appinventor_project.py` (DigitalGarden).

The file shallowly embeds the two entry points of the script:
the packaging half (`ensure_required_files`, `ensure_no_conflicts`,
`ensure_assets`, `ensure_project_properties`, `write_aia`, `main`) and the
generator half (`ComponentBuilder`/`build_scm`, `BlockFactory`/`build_bky`,
`project_properties`, `write_files`).  Filesystem paths are modelled as lists
of path components; machine state that the Python process could observe
(clock, randomness) is an explicit `Env` record; the per-run identifier
counters are explicit state threaded with `StateM`.
-/

namespace DG

/-- Python `round` on the exactly-representable values produced by the
script's default formulas: round-half-to-even (banker's rounding), modelled
on the rationals.  All values that the script rounds (`975`, `9.5`, `95`,
`49.5` offsets) are exact binary floats, so the rational model is faithful. -/
def pyRound (q : ℚ) : ℤ :=
  let f : ℤ := ⌊q⌋
  if q - f < 1 / 2 then f
  else if 1 / 2 < q - f then f + 1
  else if f % 2 = 0 then f else f + 1

/-- `SLIDER_DEFAULT = 50` -/
def SLIDER_DEFAULT : ℤ := 50

/-- `round(2000 - (1950 * SLIDER_DEFAULT) / 100)` -/
def blink_default : ℤ := pyRound (2000 - (1950 * (SLIDER_DEFAULT : ℚ)) / 100)

/-- `round(2000 - (1950 * SLIDER_DEFAULT) / 100)` -/
def chase_default : ℤ := pyRound (2000 - (1950 * (SLIDER_DEFAULT : ℚ)) / 100)

/-- `round(1 + (19 * SLIDER_DEFAULT) / 100)` -/
def fade_default : ℤ := pyRound (1 + (19 * (SLIDER_DEFAULT : ℚ)) / 100)

/-- `round(200 - (190 * SLIDER_DEFAULT) / 100)` -/
def rainbow_default : ℤ := pyRound (200 - (190 * (SLIDER_DEFAULT : ℚ)) / 100)

/-- `round(1 + (99 * SLIDER_DEFAULT) / 100)` -/
def twinkle_default : ℤ := pyRound (1 + (99 * (SLIDER_DEFAULT : ℚ)) / 100)

/-- The module-level `PROJECT_PROPERTIES` triple-quoted string constant
(lines 29-45 of the script), used by the packaging entry point. -/
def PROJECT_PROPERTIES : String :=
  "main=appinventor.ai_digitalgarden.DigitalGardenController.Screen1\n" ++
  "name=DigitalGardenController\n" ++
  "assets=../assets\n" ++
  "source=../src\n" ++
  "build=../build\n" ++
  "versioncode=1\n" ++
  "versionname=1.0\n" ++
  "useslocation=False\n" ++
  "aname=DigitalGardenController\n" ++
  "sizing=Responsive\n" ++
  "showlistsasjson=True\n" ++
  "actionbar=True\n" ++
  "theme=AppTheme.Light.DarkActionBar\n" ++
  "color.primary=&HFF2196F3\n" ++
  "color.primary.dark=&HFF1565C0\n" ++
  "color.accent=&HFFFFC107\n"

/-- The `project_properties()` function of the generator entry point:
`"\n".join([...]) + "\n"`. -/
def project_properties : String :=
  String.intercalate "\n" [
    "main=appinventor.ai_digitalgarden.DigitalGardenController.Screen1",
    "name=DigitalGardenController",
    "assets=../assets",
    "source=../src",
    "build=../build",
    "versioncode=1",
    "versionname=1.0",
    "useslocation=False",
    "aname=DigitalGardenController",
    "sizing=Responsive",
    "showlistsasjson=True",
    "actionbar=True",
    "theme=AppTheme.Light.DarkActionBar",
    "color.primary=&HFF2196F3",
    "color.primary.dark=&HFF1565C0",
    "color.accent=&HFFFFC107"
  ] ++ "\n"

/-! ### JSON values and `json.dumps(..., separators=(",", ":"))` -/

/-- JSON values as produced by `build_scm`: strings, arrays and
insertion-ordered objects (Python dicts preserve insertion order). -/
inductive JVal where
  | str (s : String)
  | arr (xs : List JVal)
  | obj (kvs : List (String × JVal))

/-- Lowercase hexadecimal digit, as used by `json.dumps` `\uXXXX` escapes. -/
def hexDigit (n : Nat) : Char :=
  if n < 10 then Char.ofNat (48 + n) else Char.ofNat (87 + n)

/-- Escape one character the way `json.dumps` (with `ensure_ascii=True`)
escapes string characters.  Astral-plane characters (which would need
surrogate pairs) do not occur in the generated content. -/
def jsonEscapeChar (c : Char) : String :=
  if c = '"' then "\\\""
  else if c = '\\' then "\\\\"
  else if c = '\n' then "\\n"
  else if c = '\r' then "\\r"
  else if c = '\t' then "\\t"
  else if c.toNat < 32 || 126 < c.toNat then
    "\\u" ++ String.mk [hexDigit (c.toNat / 4096 % 16), hexDigit (c.toNat / 256 % 16),
      hexDigit (c.toNat / 16 % 16), hexDigit (c.toNat % 16)]
  else String.singleton c

/-- A JSON string literal: quotes around the escaped characters. -/
def jsonQuote (s : String) : String :=
  "\"" ++ String.join (s.data.map jsonEscapeChar) ++ "\""

mutual

/-- `json.dumps(v, separators=(",", ":"))`: compact serialization, keys in
insertion order. -/
def dumps : JVal → String
  | .str s => jsonQuote s
  | .arr xs => "[" ++ dumpsArr xs ++ "]"
  | .obj kvs => "\x7b" ++ dumpsObj kvs ++ "\x7d"

/-- Comma-separated serialization of a JSON array's elements. -/
def dumpsArr : List JVal → String
  | [] => ""
  | [x] => dumps x
  | x :: y :: xs => dumps x ++ "," ++ dumpsArr (y :: xs)

/-- Comma-separated serialization of a JSON object's key/value pairs. -/
def dumpsObj : List (String × JVal) → String
  | [] => ""
  | [(k, v)] => jsonQuote k ++ ":" ++ dumps v
  | (k, v) :: y :: xs => jsonQuote k ++ ":" ++ dumps v ++ "," ++ dumpsObj (y :: xs)

end

/-! ### `ComponentBuilder` and `build_scm` -/

/-- The `ComponentBuilder` state is its `_uuid` counter; state is threaded
explicitly instead of living in a mutable object. -/
abbrev BuilderM := StateM Nat

/-- `ComponentBuilder._next_uuid`: increment, then return the string form. -/
def next_uuid : BuilderM String := do
  modify (· + 1)
  let u ← get
  pure (toString u)

/-- `ComponentBuilder.component`: the descriptor dict in insertion order —
`$Name`, `$Type`, `$Version`, `Uuid`, then the properties, then
`$Components` when the child list is non-empty (Python skips the key for a
falsy `children`). -/
def component (name type_ : String) (version : Nat) (props : List (String × String))
    (children : List JVal) : BuilderM JVal := do
  let u ← next_uuid
  let data := [("$Name", JVal.str name), ("$Type", JVal.str type_),
    ("$Version", JVal.str (toString version)), ("Uuid", JVal.str u)]
    ++ props.map (fun kv => (kv.1, JVal.str kv.2))
  let data := if children.isEmpty then data else data ++ [("$Components", JVal.arr children)]
  pure (JVal.obj data)

/-- `build_scm`'s inner `slider_block` helper: a label, a slider, and a
vertical arrangement containing both. -/
def slider_block (name label_text : String) : BuilderM JVal := do
  let label ← component (name ++ "Label") "Label" 5 [("Text", label_text)] []
  let slider ← component name "Slider" 3 [("MaxValue", "100"), ("MinValue", "0"),
    ("ThumbPosition", toString SLIDER_DEFAULT), ("Width", "-2")] []
  component (name ++ "Layout") "VerticalArrangement" 4 [("Width", "-2")] [label, slider]

/-- The component constructions of `build_scm`, in the evaluation order of
the Python source (arguments before calls, left to right), producing the
`$Components` list `[main_layout, notifier, bluetooth]` of `Screen1`. -/
def scm_components : BuilderM (List JVal) := do
  let title ← component "TitleLabel" "Label" 5
    [("Text", "Digital Garden Controller"), ("FontSize", "20"), ("TextAlignment", "1")] []
  let connect_picker ← component "ConnectPicker" "ListPicker" 9
    [("Text", "Connect"), ("Width", "-2")] []
  let disconnect_button ← component "DisconnectButton" "Button" 7
    [("Text", "Disconnect"), ("Width", "-2")] []
  let connection_row ← component "ConnectionRow" "HorizontalArrangement" 4
    [("AlignHorizontal", "3"), ("Width", "-2")] [connect_picker, disconnect_button]
  let status_label ← component "StatusLabel" "Label" 5
    [("Text", "Not connected"), ("Width", "-2")] []
  let mode_label ← component "ModeLabel" "Label" 5
    [("Text", "Modes"), ("FontBold", "True")] []
  let manual_button ← component "ManualButton" "Button" 7 [("Text", "Manual")] []
  let chase_button ← component "ChaseButton" "Button" 7 [("Text", "Chase")] []
  let mode_row1 ← component "ModeRow1" "HorizontalArrangement" 4 [("Width", "-2")]
    [manual_button, chase_button]
  let blink_button ← component "BlinkModeButton" "Button" 7 [("Text", "Blink")] []
  let fade_button ← component "FadeModeButton" "Button" 7 [("Text", "Fade")] []
  let mode_row2 ← component "ModeRow2" "HorizontalArrangement" 4 [("Width", "-2")]
    [blink_button, fade_button]
  let rainbow_button ← component "RainbowModeButton" "Button" 7 [("Text", "Rainbow")] []
  let mode_row3 ← component "ModeRow3" "HorizontalArrangement" 4 [("Width", "-2")]
    [rainbow_button]
  let manual_label ← component "ManualLabel" "Label" 5
    [("Text", "Manual Colors"), ("FontBold", "True")] []
  let cb_red ← component "CheckBoxRed" "CheckBox" 2 [("Text", "Red"), ("Checked", "False")] []
  let cb_green ← component "CheckBoxGreen" "CheckBox" 2 [("Text", "Green"), ("Checked", "False")] []
  let cb_blue ← component "CheckBoxBlue" "CheckBox" 2 [("Text", "Blue"), ("Checked", "False")] []
  let cb_white ← component "CheckBoxWhite" "CheckBox" 2 [("Text", "White"), ("Checked", "False")] []
  let color_layout ← component "ColorLayout" "VerticalArrangement" 4 [("Width", "-2")]
    [cb_red, cb_green, cb_blue, cb_white]
  let settings_label ← component "SettingsLabel" "Label" 5
    [("Text", "Effect Settings"), ("FontBold", "True")] []
  let blink_layout ← slider_block "BlinkSlider"
    ("Blink Interval: " ++ toString blink_default ++ " ms")
  let chase_layout ← slider_block "ChaseSlider"
    ("Chase Interval: " ++ toString chase_default ++ " ms")
  let fade_layout ← slider_block "FadeSlider" ("Fade Step: " ++ toString fade_default)
  let rainbow_layout ← slider_block "RainbowSlider"
    ("Rainbow Speed: " ++ toString rainbow_default ++ " ms")
  let twinkle_layout ← slider_block "TwinkleSlider"
    ("Twinkle Speed: " ++ toString twinkle_default)
  let main_layout ← component "MainLayout" "VerticalArrangement" 4
    [("AlignHorizontal", "3"), ("Width", "-2")]
    [title, connection_row, status_label, mode_label, mode_row1, mode_row2, mode_row3,
      manual_label, color_layout, settings_label, blink_layout, chase_layout, fade_layout,
      rainbow_layout, twinkle_layout]
  let notifier ← component "Notifier1" "Notifier" 6 [] []
  let bluetooth ← component "BluetoothClient1" "BluetoothClient" 8 [("Enabled", "True")] []
  pure [main_layout, notifier, bluetooth]

/-- The `properties` dict of `build_scm`: the `Screen1` form descriptor,
whose `Uuid` is the literal `'0'` and whose `$Components` come from a
builder run seeded at 1000 (`ComponentBuilder()`'s initial `_uuid`). -/
def screen_properties : JVal :=
  JVal.obj [("$Name", .str "Screen1"), ("$Type", .str "Form"), ("$Version", .str "31"),
    ("AppName", .str "DigitalGardenController"), ("Title", .str "Digital Garden Controller"),
    ("Scrollable", .str "True"), ("Sizing", .str "Responsive"),
    ("Theme", .str "AppTheme.Light.DarkActionBar"), ("ShowListsAsJson", .str "True"),
    ("Uuid", .str "0"), ("$Components", .arr (scm_components.run 1000).1)]

/-- The `scm_obj` dict of `build_scm`. -/
def scm_obj : JVal :=
  JVal.obj [("authURL", .arr [.str "*UNKNOWN*", .str "digitalgarden"]),
    ("YaVersion", .str "213"), ("Source", .str "Form"), ("Properties", screen_properties)]

/-- Ambient process state a Python run could observe (wall clock,
randomness).  The generators never consult it; passing it explicitly lets
the determinism claim be stated as independence from it. -/
structure Env where
  time : Nat
  randomness : Nat → Nat

/-- `build_scm`: the `#|`/`|#`-delimited `$JSON` blob. -/
def build_scm (_env : Env) : String :=
  "#|\n$JSON\n" ++ dumps scm_obj ++ "\n|#"

mutual

/-- All `Uuid` values occurring in a JSON value, in document order. -/
def uuidsOf : JVal → List String
  | .str _ => []
  | .arr xs => uuidsOfList xs
  | .obj kvs => uuidsOfObj kvs

/-- `Uuid` values of a list of JSON values. -/
def uuidsOfList : List JVal → List String
  | [] => []
  | x :: xs => uuidsOf x ++ uuidsOfList xs

/-- `Uuid` values under an object's key/value pairs. -/
def uuidsOfObj : List (String × JVal) → List String
  | [] => []
  | (k, v) :: rest =>
    (if k = "Uuid" then (match v with | .str s => [s] | _ => []) else [])
      ++ uuidsOf v ++ uuidsOfObj rest

end

/-! ### XML elements and the `xml.etree.ElementTree` writer -/

/-- An ElementTree element: tag, attributes in insertion order, optional
leading text (only `field` nodes carry text; `""` stands for Python's
falsy empty/absent text), and child elements.  Tail text is never used by
the script. -/
inductive XElem where
  | mk (tag : String) (attrs : List (String × String)) (text : String)
      (children : List XElem)

/-- The element's tag. -/
def XElem.tag : XElem → String
  | .mk t _ _ _ => t

/-- The element's attribute list. -/
def XElem.attrs : XElem → List (String × String)
  | .mk _ a _ _ => a

/-- The element's text. -/
def XElem.text : XElem → String
  | .mk _ _ x _ => x

/-- The element's children. -/
def XElem.children : XElem → List XElem
  | .mk _ _ _ c => c

/-- `Element.append`/`SubElement` calls on an already-created element:
the new children go at the end, preserving insertion order. -/
def addChildren (e : XElem) (cs : List XElem) : XElem :=
  match e with
  | .mk t a x ch => .mk t a x (ch ++ cs)

/-- A childless, textless subelement (`ET.SubElement(parent, tag, attrs)`),
used for `eventparam`, `localname` and `arg` nodes. -/
def xsub (tag : String) (attrs : List (String × String)) : XElem :=
  .mk tag attrs "" []

/-- `mutation(parent, **attrs)`: a `mutation` subelement with the given
attributes (children, when any, are added by the caller). -/
def mutation (attrs : List (String × String)) : XElem :=
  .mk "mutation" attrs "" []

/-- `field(parent, name, text)`. -/
def field (name text_ : String) : XElem :=
  .mk "field" [("name", name)] text_ []

/-- `value(parent, name, child)`: wrapper containing exactly the child. -/
def value (name : String) (child : XElem) : XElem :=
  .mk "value" [("name", name)] "" [child]

/-- `statement(parent, name, child=None)`. -/
def statement (name : String) (child : Option XElem) : XElem :=
  .mk "statement" [("name", name)] ""
    (match child with | some c => [c] | none => [])

/-- `nxt(parent, child)` as used on block elements: the `next` wrapper that
gets appended to the parent (the append itself is written out with
`addChildren` at each use site, since the Python helper mutates its
argument). -/
def nxt (child : XElem) : XElem :=
  .mk "next" [] "" [child]

/-! ### `BlockFactory` and the block constructors -/

/-- The `BlockFactory` state is its `counter`, threaded explicitly. -/
abbrev FactoryM := StateM Nat

/-- `BlockFactory.new_block`: bump the counter and create a `block` element
with `type`, then `id`, then the remaining keyword attributes.  `idOverride`
models `attrs.pop('id', f"b{self.counter}")`; no call site in the script
passes an explicit id, so every use below passes `none`. -/
def new_block (type_ : String) (idOverride : Option String)
    (attrs : List (String × String)) : FactoryM XElem := do
  modify (· + 1)
  let c ← get
  let idv := match idOverride with
    | some s => s
    | none => "b" ++ toString c
  pure (.mk "block" ([("type", type_), ("id", idv)] ++ attrs) "" [])

/-- `ARG0`, `ARG1`, … (or `ADD0`, …) value wrappers for an argument list. -/
def indexedValues (pre : String) (args : List XElem) : List XElem :=
  args.enum.map (fun p => value (pre ++ toString p.1) p.2)

/-- `text_literal`. -/
def text_literal (s : String) : FactoryM XElem := do
  let b ← new_block "text" none []
  pure (addChildren b [field "TEXT" s])

/-- `math_number` (all call sites pass integers). -/
def math_number (n : ℤ) : FactoryM XElem := do
  let b ← new_block "math_number" none []
  pure (addChildren b [field "NUM" (toString n)])

/-- `math_arithmetic`. -/
def math_arithmetic (op : String) (left right : XElem) : FactoryM XElem := do
  let b ← new_block "math_arithmetic" none []
  pure (addChildren b [field "OP" op, value "A" left, value "B" right])

/-- `math_round`. -/
def math_round (child : XElem) : FactoryM XElem := do
  let b ← new_block "math_round" none []
  pure (addChildren b [field "OP" "ROUND", value "NUM" child])

/-- `lexical_get`. -/
def lexical_get (name : String) (event_param : Bool) : FactoryM XElem := do
  let b ← new_block "lexical_variable_get" none []
  let pre := if event_param then
      [addChildren (mutation []) [xsub "eventparam" [("name", name)]]]
    else []
  pure (addChildren b (pre ++ [field "VAR" name]))

/-- `local_declaration`. -/
def local_declaration (name : String) (initial body : XElem) : FactoryM XElem := do
  let b ← new_block "local_declaration_statement" none [("inline", "false")]
  let m := addChildren (mutation []) [xsub "localname" [("name", name)]]
  pure (addChildren b
    [m, field "VAR0" name, value "DECL0" initial, statement "STACK" (some body)])

/-- `set_property`. -/
def set_property (componentName comp_type prop : String) (child : XElem) :
    FactoryM XElem := do
  let b ← new_block "component_set_get" none [("inline", "false")]
  pure (addChildren b
    [mutation [("component_type", comp_type), ("set_or_get", "set"),
      ("property_name", prop), ("is_generic", "false"), ("instance_name", componentName)],
     field "COMPONENT_SELECTOR" componentName, field "PROP" prop, value "VALUE" child])

/-- `get_property`. -/
def get_property (componentName comp_type prop : String) : FactoryM XElem := do
  let b ← new_block "component_set_get" none [("inline", "false")]
  pure (addChildren b
    [mutation [("component_type", comp_type), ("set_or_get", "get"),
      ("property_name", prop), ("is_generic", "false"), ("instance_name", componentName)],
     field "COMPONENT_SELECTOR" componentName, field "PROP" prop])

/-- `call_method`. -/
def call_method (componentName comp_type method : String) (args : List XElem) :
    FactoryM XElem := do
  let b ← new_block "component_method" none [("inline", "false")]
  pure (addChildren b
    ([mutation [("component_type", comp_type), ("method_name", method),
       ("is_generic", "false"), ("instance_name", componentName)],
      field "COMPONENT_SELECTOR" componentName] ++ indexedValues "ARG" args))

/-- `text_join`. -/
def text_join (items : List XElem) : FactoryM XElem := do
  let b ← new_block "text_join" none [("inline", "false")]
  pure (addChildren b
    ([mutation [("items", toString items.length)]] ++ indexedValues "ADD" items))

/-- `call_procedure`. -/
def call_procedure (name : String) (arg_names : List String)
    (arg_blocks : List XElem) : FactoryM XElem := do
  let b ← new_block "procedures_callnoreturn" none [("inline", "false")]
  let m := addChildren (mutation [("name", name)])
    (arg_names.map (fun a => xsub "arg" [("name", a)]))
  pure (addChildren b
    ([m, field "PROCNAME" name] ++ indexedValues "ARG" arg_blocks))

/-- `component_event`. -/
def component_event (comp_type instanceName ev : String) (body : XElem)
    (x y : Option ℤ) : FactoryM XElem := do
  let attrs :=
    (match x with | some v => [("x", toString v)] | none => []) ++
    (match y with | some v => [("y", toString v)] | none => [])
  let b ← new_block "component_event" none attrs
  pure (addChildren b
    [mutation [("component_type", comp_type), ("is_generic", "false"),
      ("instance_name", instanceName), ("event_name", ev)],
     field "COMPONENT_SELECTOR" instanceName, statement "DO" (some body)])

/-- `text_split`. -/
def text_split (text_block delimiter : XElem) : FactoryM XElem := do
  let b ← new_block "text_split" none [("inline", "false")]
  pure (addChildren b
    [mutation [("mode", "SPLIT")], field "OP" "SPLIT",
     value "TEXT" text_block, value "AT" delimiter])

/-- `select_list_item` (the `math_number` for the index is created after the
`lists_select_item` block itself, as in the source). -/
def select_list_item (list_block : XElem) (index : ℤ) : FactoryM XElem := do
  let b ← new_block "lists_select_item" none []
  let num ← math_number index
  pure (addChildren b [value "LIST" list_block, value "NUM" num])

/-- `logic_compare`. -/
def logic_compare (op : String) (left right : XElem) : FactoryM XElem := do
  let b ← new_block "logic_compare" none []
  pure (addChildren b [field "OP" op, value "A" left, value "B" right])

/-- `controls_if`: the `else`-count mutation and the `ELSE` statement are
present exactly when an else block is supplied. -/
def controls_if (condition then_block : XElem) (else_block : Option XElem) :
    FactoryM XElem := do
  let b ← new_block "controls_if" none [("inline", "false")]
  let pre := match else_block with
    | some _ => [mutation [("else", "1")]]
    | none => []
  let post := match else_block with
    | some e => [statement "ELSE" (some e)]
    | none => []
  pure (addChildren b
    (pre ++ [value "IF0" condition, statement "DO0" (some then_block)] ++ post))

/-- `logic_boolean`. -/
def logic_boolean (value_bool : Bool) : FactoryM XElem := do
  let b ← new_block "logic_boolean" none []
  pure (addChildren b [field "BOOL" (if value_bool then "TRUE" else "FALSE")])

/-- `slider_expression`, in source evaluation order. -/
def slider_expression (base delta : ℤ) (subtract : Bool) : FactoryM XElem := do
  let param ← lexical_get "thumbPosition" true
  let dnum ← math_number delta
  let mult ← math_arithmetic "MULTIPLY" dnum param
  let hundred ← math_number 100
  let divb ← math_arithmetic "DIVIDE" mult hundred
  let bnum ← math_number base
  let expr ← if subtract then math_arithmetic "MINUS" bnum divb
    else math_arithmetic "ADD" bnum divb
  math_round expr

/-- `slider_event`; `if suffix:` skips the suffix literal for the empty
string. -/
def slider_event (slider label command_key : String) (base delta : ℤ)
    (subtract : Bool) (prefixStr suffixStr : String) (x y : ℤ) : FactoryM XElem := do
  let value_expr ← slider_expression base delta subtract
  let p ← text_literal prefixStr
  let sv ← lexical_get "sliderValue" false
  let text_parts ← if suffixStr = "" then pure [p, sv]
    else do
      let s ← text_literal suffixStr
      pure [p, sv, s]
  let label_text ← text_join text_parts
  let label_block ← set_property label "Label" "Text" label_text
  let sendLit ← text_literal ("SET " ++ command_key ++ " ")
  let sv2 ← lexical_get "sliderValue" false
  let joined ← text_join [sendLit, sv2]
  let send_block ← call_procedure "SendCommand" ["cmd"] [joined]
  let label_block := addChildren label_block [nxt send_block]
  let local_body ← local_declaration "sliderValue" value_expr label_block
  component_event "Slider" slider "PositionChanged" local_body (some x) (some y)

/-- The well-nested chain built by `nxt(current_block, next_block);
current_block = next_block` (the `Screen1.Initialize` loop): each block gets
a `next` wrapper holding the rest of the chain. -/
def chainBlocks (x : XElem) (rest : List XElem) : XElem :=
  match rest with
  | [] => x
  | y :: more => addChildren x [nxt (chainBlocks y more)]

/-- The body of `build_bky`: every statement of the source in Python
evaluation order (arguments before calls, left to right), producing the
root `xml` element.  `root.append` accumulates the event handlers in order;
element reuse in the source (`success_text`, `failure_text`) becomes plain
value reuse here, which serializes the same subtree twice exactly as
ElementTree does for an element appended to two parents. -/
def bky_program : FactoryM XElem := do
  -- Procedure SendCommand
  let proc ← new_block "procedures_defnoreturn" none [("x", "40"), ("y", "20")]
  let m := addChildren (mutation []) [xsub "arg" [("name", "cmd")]]
  let cond ← get_property "BluetoothClient1" "BluetoothClient" "IsConnected"
  let cmdGet ← lexical_get "cmd" false
  let nlLit ← text_literal "\\n"
  let sendJoin ← text_join [cmdGet, nlLit]
  let send_text ← call_method "BluetoothClient1" "BluetoothClient" "SendText" [sendJoin]
  let alertLit ← text_literal "Connect to the ESP32 over Bluetooth first."
  let alert ← call_method "Notifier1" "Notifier" "ShowAlert" [alertLit]
  let procIf ← controls_if cond send_text (some alert)
  let proc := addChildren proc
    [m, field "NAME" "SendCommand", field "VAR0" "cmd", statement "STACK" (some procIf)]
  -- Screen1.Initialize
  let tapLit ← text_literal "Tap Connect to pair with WIFILampV1."
  let init_body_first ← set_property "StatusLabel" "Label" "Text" tapLit
  let t1 ← text_literal ("Blink Interval: " ++ toString blink_default ++ " ms")
  let s1 ← set_property "BlinkLabel" "Label" "Text" t1
  let t2 ← text_literal ("Chase Interval: " ++ toString chase_default ++ " ms")
  let s2 ← set_property "ChaseLabel" "Label" "Text" t2
  let t3 ← text_literal ("Fade Step: " ++ toString fade_default)
  let s3 ← set_property "FadeLabel" "Label" "Text" t3
  let t4 ← text_literal ("Rainbow Speed: " ++ toString rainbow_default ++ " ms")
  let s4 ← set_property "RainbowLabel" "Label" "Text" t4
  let t5 ← text_literal ("Twinkle Speed: " ++ toString twinkle_default)
  let s5 ← set_property "TwinkleLabel" "Label" "Text" t5
  let chained := chainBlocks init_body_first [s1, s2, s3, s4, s5]
  let init_block ← component_event "Form" "Screen1" "Initialize" chained (some 40) (some 220)
  -- ConnectPicker.BeforePicking
  let addresses ← get_property "BluetoothClient1" "BluetoothClient" "AddressesAndNames"
  let before_body ← set_property "ConnectPicker" "ListPicker" "Elements" addresses
  let before_event ← component_event "ListPicker" "ConnectPicker" "BeforePicking"
    before_body (some 320) (some 20)
  -- ConnectPicker.AfterPicking
  let selection ← get_property "ConnectPicker" "ListPicker" "Selection"
  let empty_text ← text_literal ""
  let condition ← logic_compare "NEQ" selection empty_text
  let sel2 ← get_property "ConnectPicker" "ListPicker" "Selection"
  let nl2 ← text_literal "\\n"
  let parts ← text_split sel2 nl2
  let device_name ← select_list_item parts 1
  let sel3 ← get_property "ConnectPicker" "ListPicker" "Selection"
  let nl3 ← text_literal "\\n"
  let split2 ← text_split sel3 nl3
  let device_address ← select_list_item split2 2
  let connect_call ← call_method "BluetoothClient1" "BluetoothClient" "Connect" [device_address]
  let connLit ← text_literal "Connected to "
  let success_text ← text_join [connLit, device_name]
  let success_body ← set_property "StatusLabel" "Label" "Text" success_text
  let successAlert ← call_method "Notifier1" "Notifier" "ShowAlert" [success_text]
  let success_body := addChildren success_body [nxt successAlert]
  let failure_text ← text_literal "Connection failed. Make sure the lamp is discoverable."
  let failure_body ← set_property "StatusLabel" "Label" "Text" failure_text
  let failAlert ← call_method "Notifier1" "Notifier" "ShowAlert" [failure_text]
  let failure_body := addChildren failure_body [nxt failAlert]
  let connect_if ← controls_if connect_call success_body (some failure_body)
  let after_body ← controls_if condition connect_if none
  let after_event ← component_event "ListPicker" "ConnectPicker" "AfterPicking"
    after_body (some 320) (some 200)
  -- Disconnect button
  let disconnect_first ← call_method "BluetoothClient1" "BluetoothClient" "Disconnect" []
  let dLit ← text_literal "Disconnected."
  let status_reset ← set_property "StatusLabel" "Label" "Text" dLit
  let f1 ← logic_boolean false
  let cbR ← set_property "CheckBoxRed" "CheckBox" "Checked" f1
  let f2 ← logic_boolean false
  let cbG ← set_property "CheckBoxGreen" "CheckBox" "Checked" f2
  let f3 ← logic_boolean false
  let cbB ← set_property "CheckBoxBlue" "CheckBox" "Checked" f3
  let f4 ← logic_boolean false
  let cbW ← set_property "CheckBoxWhite" "CheckBox" "Checked" f4
  let aLit ← text_literal "Disconnected."
  let alert_block ← call_method "Notifier1" "Notifier" "ShowAlert" [aLit]
  -- `current = nxt(current, x)` keeps the returned wrapper as `current`, so
  -- each subsequent `next` wrapper is appended to the PREVIOUS wrapper and
  -- ends up a sibling of the chained block, not nested inside it:
  let w6 := nxt alert_block
  let w5 := XElem.mk "next" [] "" [cbW, w6]
  let w4 := XElem.mk "next" [] "" [cbB, w5]
  let w3 := XElem.mk "next" [] "" [cbG, w4]
  let w2 := XElem.mk "next" [] "" [cbR, w3]
  let w1 := XElem.mk "next" [] "" [status_reset, w2]
  let disconnect_first := addChildren disconnect_first [w1]
  let disconnect_event ← component_event "Button" "DisconnectButton" "Click"
    disconnect_first (some 40) (some 420)
  -- Mode buttons (dict iteration order, offsets 640, 760, 880, 1000, 1120)
  let manualLit ← text_literal "MODE MANUAL"
  let manualCall ← call_procedure "SendCommand" ["cmd"] [manualLit]
  let manualEvent ← component_event "Button" "ManualButton" "Click" manualCall (some 40) (some 640)
  let chaseLit ← text_literal "MODE CHASE"
  let chaseCall ← call_procedure "SendCommand" ["cmd"] [chaseLit]
  let chaseEvent ← component_event "Button" "ChaseButton" "Click" chaseCall (some 40) (some 760)
  let blinkLit ← text_literal "MODE BLINK"
  let blinkCall ← call_procedure "SendCommand" ["cmd"] [blinkLit]
  let blinkEvent ← component_event "Button" "BlinkModeButton" "Click" blinkCall (some 40) (some 880)
  let fadeLit ← text_literal "MODE FADE"
  let fadeCall ← call_procedure "SendCommand" ["cmd"] [fadeLit]
  let fadeEvent ← component_event "Button" "FadeModeButton" "Click" fadeCall (some 40) (some 1000)
  let rainbowLit ← text_literal "MODE RAINBOW"
  let rainbowCall ← call_procedure "SendCommand" ["cmd"] [rainbowLit]
  let rainbowEvent ← component_event "Button" "RainbowModeButton" "Click" rainbowCall (some 40) (some 1120)
  -- CheckBox events (offsets 40, 180, 320, 460)
  let redOnLit ← text_literal "RED ON"
  let redOnCall ← call_procedure "SendCommand" ["cmd"] [redOnLit]
  let redOffLit ← text_literal "RED OFF"
  let redOffCall ← call_procedure "SendCommand" ["cmd"] [redOffLit]
  let redCond ← lexical_get "value" true
  let redBody ← controls_if redCond redOnCall (some redOffCall)
  let redEvent ← component_event "CheckBox" "CheckBoxRed" "Changed" redBody (some 600) (some 40)
  let greenOnLit ← text_literal "GREEN ON"
  let greenOnCall ← call_procedure "SendCommand" ["cmd"] [greenOnLit]
  let greenOffLit ← text_literal "GREEN OFF"
  let greenOffCall ← call_procedure "SendCommand" ["cmd"] [greenOffLit]
  let greenCond ← lexical_get "value" true
  let greenBody ← controls_if greenCond greenOnCall (some greenOffCall)
  let greenEvent ← component_event "CheckBox" "CheckBoxGreen" "Changed" greenBody (some 600) (some 180)
  let blueOnLit ← text_literal "BLUE ON"
  let blueOnCall ← call_procedure "SendCommand" ["cmd"] [blueOnLit]
  let blueOffLit ← text_literal "BLUE OFF"
  let blueOffCall ← call_procedure "SendCommand" ["cmd"] [blueOffLit]
  let blueCond ← lexical_get "value" true
  let blueBody ← controls_if blueCond blueOnCall (some blueOffCall)
  let blueEvent ← component_event "CheckBox" "CheckBoxBlue" "Changed" blueBody (some 600) (some 320)
  let whiteOnLit ← text_literal "WHITE ON"
  let whiteOnCall ← call_procedure "SendCommand" ["cmd"] [whiteOnLit]
  let whiteOffLit ← text_literal "WHITE OFF"
  let whiteOffCall ← call_procedure "SendCommand" ["cmd"] [whiteOffLit]
  let whiteCond ← lexical_get "value" true
  let whiteBody ← controls_if whiteCond whiteOnCall (some whiteOffCall)
  let whiteEvent ← component_event "CheckBox" "CheckBoxWhite" "Changed" whiteBody (some 600) (some 460)
  -- Slider events (offsets 40, 240, 440, 640, 840)
  let blinkSliderEvent ← slider_event "BlinkSlider" "BlinkLabel" "BLINK" 2000 1950 true
    "Blink Interval: " " ms" 900 40
  let chaseSliderEvent ← slider_event "ChaseSlider" "ChaseLabel" "CHASE" 2000 1950 true
    "Chase Interval: " " ms" 900 240
  let fadeSliderEvent ← slider_event "FadeSlider" "FadeLabel" "FADE" 1 19 false
    "Fade Step: " "" 900 440
  let rainbowSliderEvent ← slider_event "RainbowSlider" "RainbowLabel" "RAINBOW" 200 190 true
    "Rainbow Speed: " " ms" 900 640
  let twinkleSliderEvent ← slider_event "TwinkleSlider" "TwinkleLabel" "TWINKLE" 1 99 false
    "Twinkle Speed: " "" 900 840
  pure (.mk "xml" [("xmlns", "http://www.w3.org/1999/xhtml")] ""
    [proc, init_block, before_event, after_event, disconnect_event,
     manualEvent, chaseEvent, blinkEvent, fadeEvent, rainbowEvent,
     redEvent, greenEvent, blueEvent, whiteEvent,
     blinkSliderEvent, chaseSliderEvent, fadeSliderEvent, rainbowSliderEvent,
     twinkleSliderEvent])

/-- The root element of `build_bky`, from a fresh `BlockFactory()` (counter
seeded at 0 per run). -/
def bky_root : XElem := (bky_program.run 0).1

/-! ### The ElementTree serializer (`ET.tostring(root, encoding='utf-8')`) -/

/-- ElementTree attribute-value escaping. -/
def escapeAttrChar (c : Char) : String :=
  if c = '&' then "&amp;"
  else if c = '<' then "&lt;"
  else if c = '>' then "&gt;"
  else if c = '"' then "&quot;"
  else if c = '\r' then "&#13;"
  else if c = '\n' then "&#10;"
  else if c = '\t' then "&#09;"
  else String.singleton c

/-- Escape an attribute value. -/
def escapeAttr (s : String) : String :=
  String.join (s.data.map escapeAttrChar)

/-- ElementTree character-data escaping. -/
def escapeCdataChar (c : Char) : String :=
  if c = '&' then "&amp;"
  else if c = '<' then "&lt;"
  else if c = '>' then "&gt;"
  else String.singleton c

/-- Escape element text. -/
def escapeCdata (s : String) : String :=
  String.join (s.data.map escapeCdataChar)

mutual

/-- ElementTree XML writer: attributes in insertion order; an element with
no text and no children is written self-closing as `<tag ... />`. -/
def serElem : XElem → String
  | .mk tag attrs txt children =>
    let a := String.join (attrs.map (fun kv => " " ++ kv.1 ++ "=\"" ++ escapeAttr kv.2 ++ "\""))
    if txt = "" && children.isEmpty then
      "<" ++ tag ++ a ++ " />"
    else
      "<" ++ tag ++ a ++ ">" ++ escapeCdata txt ++ serList children ++ "</" ++ tag ++ ">"

/-- Serialize a child list in order. -/
def serList : List XElem → String
  | [] => ""
  | c :: cs => serElem c ++ serList cs

end

/-- `build_bky`: `ET.tostring(root, encoding='utf-8').decode('utf-8')`,
which prepends the XML declaration. -/
def build_bky (_env : Env) : String :=
  "<?xml version=\x271.0\x27 encoding=\x27utf-8\x27?>\n" ++ serElem bky_root

mutual

/-- The `id` attributes of all `block` elements of a serialized tree, in
document order (a reused element contributes once per occurrence, as in the
written file). -/
def blockIdsOf : XElem → List String
  | .mk tag attrs _ children =>
    (if tag = "block" then
      (match List.lookup "id" attrs with | some i => [i] | none => [])
     else []) ++ blockIdsOfList children

/-- Block ids of a list of elements. -/
def blockIdsOfList : List XElem → List String
  | [] => []
  | c :: cs => blockIdsOf c ++ blockIdsOfList cs

end

/-! ### Paths, the archive writers, and the packaging entry point

Filesystem paths are lists of path components.  The archive writers are
modelled on the project-directory-relative paths of the regular files under
`PROJECT_DIR` (`rglob('*')` enumerates them and `is_file()` filters to
them); sorting the relative paths is order-equivalent to sorting the
absolute `Path` objects, because all share the `PROJECT_DIR` prefix and
`Path` ordering is lexicographic on the component tuple.  The zip entry
name `path.relative_to(PROJECT_DIR)` is the relative path itself. -/

/-- Strict lexicographic comparison of character lists by code point:
Python's string `<`. -/
def lexLtChars : List Char → List Char → Bool
  | [], [] => false
  | [], _ :: _ => true
  | _ :: _, [] => false
  | a :: as, b :: bs => if a < b then true else if b < a then false else lexLtChars as bs

/-- Python string `<`. -/
def strLt (a b : String) : Bool := lexLtChars a.data b.data

/-- `Path.__le__`: tuple comparison of the path components (a shorter
prefix sorts first), with components compared as strings. -/
def pathLeB : List String → List String → Bool
  | [], _ => true
  | _ :: _, [] => false
  | a :: as, b :: bs => if strLt a b then true else if strLt b a then false else pathLeB as bs

/-- The path order as a relation, for the sorting lemmas. -/
def PathLe (a b : List String) : Prop := pathLeB a b = true

instance : DecidableRel PathLe := fun a b => instDecidableEqBool (pathLeB a b) true

/-- `'DigitalGardenController.aia'`, the archive's file name. -/
def aiaFileName : String := "DigitalGardenController.aia"

/-- `write_aia`'s loop: sort all enumerated paths, keep the regular files
other than `AIA_PATH` itself (relative: `[aiaFileName]`), entry name =
relative path. -/
def write_aia_entries (files : List (List String)) : List (List String) :=
  (List.insertionSort PathLe files).filter (fun p => decide (p ≠ [aiaFileName]))

/-- `write_files`'s zip loop: same sort, but the exclusion compares
`path.name != aia_path.name` — the base name only. -/
def write_files_entries (files : List (List String)) : List (List String) :=
  (List.insertionSort PathLe files).filter (fun p => decide (p.getLastD "" ≠ aiaFileName))

/-- `PROJECT_DIR` relative to the repository root. -/
def PROJECT_DIR_PATH : List String := ["app_inventor", "DigitalGardenController"]

/-- `SRC_DIR` relative to the repository root. -/
def SRC_DIR_PATH : List String :=
  PROJECT_DIR_PATH ++ ["src", "appinventor", "ai_digitalgarden", "DigitalGardenController"]

/-- `ASSETS_DIR` relative to the repository root. -/
def ASSETS_DIR_PATH : List String := PROJECT_DIR_PATH ++ ["assets"]

/-- `YOUNG_DIR` relative to the repository root. -/
def YOUNG_DIR_PATH : List String := PROJECT_DIR_PATH ++ ["youngandroidproject"]

/-- `AIA_PATH` relative to the repository root. -/
def AIA_PATH : List String := PROJECT_DIR_PATH ++ [aiaFileName]

/-- `REQUIRED_FILES`. -/
def REQUIRED_FILES : List (List String) :=
  [SRC_DIR_PATH ++ ["Screen1.scm"], SRC_DIR_PATH ++ ["Screen1.bky"]]

/-- The filesystem and version-control state a packaging run observes:
the repository-root prefix string (the absolute location is
machine-dependent), the regular files under the root (repo-relative path,
content), and the conflicted paths reported by `git ls-files -u`. -/
structure World where
  repoRoot : String
  files : List (List String × String)
  conflicts : List (List String)

/-- The existing file paths of a world. -/
def fileNames (w : World) : List (List String) := w.files.map Prod.fst

/-- `str(path)` for an absolute path under the repository root. -/
def pathString (root : String) (p : List String) : String :=
  root ++ String.join (p.map (fun c => "/" ++ c))

/-- `str(path.relative_to(REPO_ROOT))`. -/
def relString (p : List String) : String := String.intercalate "/" p

/-- The two error classes the packaging run raises (`FileNotFoundError`
and `ConflictError`), each carrying its message. -/
inductive Err where
  | fileNotFound (msg : String)
  | conflict (msg : String)
deriving DecidableEq

/-- `ensure_required_files`'s `missing` list. -/
def missing_files (w : World) : List (List String) :=
  REQUIRED_FILES.filter (fun p => decide (p ∉ fileNames w))

/-- `ensure_required_files`: raises naming each missing required path. -/
def ensure_required_files (w : World) : Option Err :=
  if (missing_files w).isEmpty then none
  else some (.fileNotFound
    ("The MIT App Inventor sources are incomplete. Make sure the following files exist:\n"
      ++ String.intercalate "\n" ((missing_files w).map (fun p => "  - " ++ pathString w.repoRoot p))
      ++ "\nIf they were deleted, restore them with `git checkout -- app_inventor`."))

/-- `list_git_conflicts`: `sorted(set(...))` of the reported paths. -/
def list_git_conflicts (w : World) : List (List String) :=
  List.insertionSort PathLe w.conflicts.dedup

/-- `ensure_no_conflicts`'s error message for a conflict list. -/
def conflict_message (conflicts : List (List String)) : String :=
  "Resolve the Git merge conflicts below before packaging the MIT App Inventor project:\n"
    ++ String.intercalate "\n" (conflicts.map (fun p => "  - " ++ relString p))
    ++ "\nOpen each file, remove the `<<<<<<<`, `=======`, and `>>>>>>>` markers, choose the correct blocks of text, then run:\n"
    ++ "  git add <each resolved file>\n"
    ++ "  python scripts/generate_appinventor_project.py\n"
    ++ "Once the helper succeeds you can commit and continue your merge or rebase."

/-- `ensure_no_conflicts`'s `conflicts` list: every reported path other
than `AIA_PATH`. -/
def gating_conflicts (w : World) : List (List String) :=
  (list_git_conflicts w).filter (fun p => decide (p ≠ AIA_PATH))

/-- `ensure_no_conflicts`: any conflicted path other than `AIA_PATH`
aborts the run, all of them listed in one error. -/
def ensure_no_conflicts (w : World) : Option Err :=
  if (gating_conflicts w).isEmpty then none
  else some (.conflict (conflict_message (gating_conflicts w)))

/-- `Path.write_text` (and `ZipFile(..., 'w')` file creation): overwrite the
content of an existing path, or create the file. -/
def setFile (w : World) (p : List String) (content : String) : World :=
  if p ∈ fileNames w then
    { w with files := w.files.map (fun f => if f.1 = p then (p, content) else f) }
  else
    { w with files := w.files ++ [(p, content)] }

/-- `ensure_assets`: write the empty `.nomedia` marker (directory creation
has no observable effect in this file model). -/
def ensure_assets (w : World) : World :=
  setFile w (ASSETS_DIR_PATH ++ [".nomedia"]) ""

/-- `ensure_project_properties`: write the properties file from the
`PROJECT_PROPERTIES` constant. -/
def ensure_project_properties (w : World) : World :=
  setFile w (YOUNG_DIR_PATH ++ ["project.properties"]) PROJECT_PROPERTIES

/-- The project-relative paths of the files under `PROJECT_DIR`. -/
def projectFileNames (w : World) : List (List String) :=
  ((fileNames w).filter
    (fun p => decide (p.take PROJECT_DIR_PATH.length = PROJECT_DIR_PATH))).map
    (fun p => p.drop PROJECT_DIR_PATH.length)

/-- Stand-in for the archive's byte stream: determined by the ordered entry
names (member contents ride along with the world; DEFLATE details are not
modelled). -/
def zipBytes (entries : List (List String)) : String :=
  String.intercalate "\n" (entries.map relString)

/-- `write_aia`: `ZipFile(AIA_PATH, 'w')` first creates/truncates the
archive file (so the later enumeration can see it), then the sorted,
filtered members are written. -/
def write_aia (w : World) : World :=
  let w1 := setFile w AIA_PATH ""
  setFile w1 AIA_PATH (zipBytes (write_aia_entries (projectFileNames w1)))

/-- `main` of the packaging entry point: the gates run before any write;
a raised error leaves the world untouched (the gates only read). -/
def main (w : World) : World × Option Err :=
  match ensure_required_files w with
  | some e => (w, some e)
  | none =>
    match ensure_no_conflicts w with
    | some e => (w, some e)
    | none =>
      let w1 := ensure_assets w
      let w2 := ensure_project_properties w1
      (write_aia w2, none)

/-- Child access for navigating concrete trees. -/
def childAt (e : XElem) (i : Nat) : XElem :=
  e.children.getD i (XElem.mk "" [] "" [])


/-- The `Uuid` entry of a descriptor object. -/
def ownUuid (v : JVal) : Option String :=
  match v with
  | .obj kvs =>
    match List.lookup "Uuid" kvs with
    | some (.str s) => some s
    | _ => none
  | _ => none

/-- The first block of the Disconnect handler's statement chain: the
`DisconnectButton.Click` event is `bky_root`'s fifth child, its third child
is the `DO` statement, whose block is the `BluetoothClient1.Disconnect`
call. -/
def disconnect_chain_first : XElem := childAt (childAt (childAt bky_root 4) 2) 0

/-- The `next` wrapper appended to the Disconnect call. -/
def disconnect_chain_wrapper : XElem := childAt disconnect_chain_first 2

/-- A project state holding a file that merely shares the archive's base
name in a subdirectory, beside the archive itself. -/
def c1ex : List (List String) :=
  [["Screen1.scm"], ["backup", "DigitalGardenController.aia"], ["DigitalGardenController.aia"]]

/-- Two enumerations of the same two files in different order. -/
def c6l1 : List (List String) := [["b.txt"], ["assets", ".nomedia"]]

/-- The other enumeration order of the files of `c6l1`. -/
def c6l2 : List (List String) := [["assets", ".nomedia"], ["b.txt"]]

/-- A world with both required descriptors present and one conflicted
source file reported by version control. -/
def c4wit_world : World :=
  { repoRoot := "/repo",
    files := [(SRC_DIR_PATH ++ ["Screen1.scm"], "scm-content"),
              (SRC_DIR_PATH ++ ["Screen1.bky"], "bky-content")],
    conflicts := [["src", "garden.py"]] }

/-- A world missing both required descriptor files. -/
def c5wit_world : World :=
  { repoRoot := "/repo", files := [], conflicts := [] }

/-! ### Supporting lemmas: the path order is total, transitive and
antisymmetric -/

theorem lexLtChars_asymm : ∀ {as bs : List Char},
    lexLtChars as bs = true → lexLtChars bs as = false
  | [], [], h => by simp [lexLtChars] at h
  | [], _ :: _, _ => by simp [lexLtChars]
  | _ :: _, [], h => by simp [lexLtChars] at h
  | a :: as, b :: bs, h => by
    by_cases hab : a < b
    · have hba : ¬ b < a := lt_asymm hab
      simp [lexLtChars, hab, hba]
    · by_cases hba : b < a
      · simp [lexLtChars, hab, hba] at h
      · simp only [lexLtChars, if_neg hab, if_neg hba] at h
        simp [lexLtChars, hab, hba, lexLtChars_asymm h]

theorem lexLtChars_eq : ∀ {as bs : List Char},
    lexLtChars as bs = false → lexLtChars bs as = false → as = bs
  | [], [], _, _ => rfl
  | [], _ :: _, h, _ => by simp [lexLtChars] at h
  | _ :: _, [], _, h => by simp [lexLtChars] at h
  | a :: as, b :: bs, h₁, h₂ => by
    by_cases hab : a < b
    · simp [lexLtChars, hab] at h₁
    · by_cases hba : b < a
      · simp [lexLtChars, hba, lt_asymm hba] at h₂
      · have he : a = b := le_antisymm (not_lt.mp hba) (not_lt.mp hab)
        subst he
        simp only [lexLtChars, if_neg hab] at h₁ h₂
        rw [lexLtChars_eq h₁ h₂]

theorem lexLtChars_trans : ∀ {as bs cs : List Char},
    lexLtChars as bs = true → lexLtChars bs cs = true → lexLtChars as cs = true
  | [], [], _, h, _ => by simp [lexLtChars] at h
  | [], _ :: _, [], _, h => by simp [lexLtChars] at h
  | [], _ :: _, _ :: _, _, _ => by simp [lexLtChars]
  | _ :: _, [], _, h, _ => by simp [lexLtChars] at h
  | _ :: _, _ :: _, [], _, h => by simp [lexLtChars] at h
  | a :: as, b :: bs, c :: cs, h₁, h₂ => by
    by_cases hab : a < b
    · by_cases hbc : b < c
      · simp [lexLtChars, lt_trans hab hbc]
      · by_cases hcb : c < b
        · simp [lexLtChars, hbc, hcb] at h₂
        · have he : b = c := le_antisymm (not_lt.mp hcb) (not_lt.mp hbc)
          subst he
          simp [lexLtChars, hab]
    · by_cases hba : b < a
      · simp [lexLtChars, hab, hba] at h₁
      · have he : a = b := le_antisymm (not_lt.mp hba) (not_lt.mp hab)
        subst he
        simp only [lexLtChars, if_neg hab, lt_irrefl, if_neg (lt_irrefl a)] at h₁
        by_cases hac : a < c
        · simp [lexLtChars, hac]
        · by_cases hca : c < a
          · simp [lexLtChars, hac, hca] at h₂
          · simp only [lexLtChars, if_neg hac, if_neg hca] at h₂ ⊢
            exact lexLtChars_trans h₁ h₂

theorem strLt_asymm {a b : String} (h : strLt a b = true) : strLt b a = false :=
  lexLtChars_asymm h

theorem strLt_trans {a b c : String} (h₁ : strLt a b = true) (h₂ : strLt b c = true) :
    strLt a c = true :=
  lexLtChars_trans h₁ h₂

theorem strLt_eq {a b : String} (h₁ : strLt a b = false) (h₂ : strLt b a = false) : a = b := by
  cases a
  cases b
  exact congrArg String.mk (lexLtChars_eq h₁ h₂)

instance : IsTotal (List String) PathLe where
  total := by
    intro a
    induction a with
    | nil => intro b; left; rfl
    | cons x as ih =>
      intro b
      cases b with
      | nil => right; rfl
      | cons y bs =>
        by_cases hxy : strLt x y = true
        · left
          simp [PathLe, pathLeB, hxy]
        · by_cases hyx : strLt y x = true
          · right
            simp [PathLe, pathLeB, hyx]
          · have he : x = y := strLt_eq (by simpa using hxy) (by simpa using hyx)
            subst he
            rcases ih bs with h | h
            · left; simpa [PathLe, pathLeB, hxy] using h
            · right; simpa [PathLe, pathLeB, hxy] using h

instance : IsAntisymm (List String) PathLe where
  antisymm := by
    intro a
    induction a with
    | nil =>
      intro b h₁ h₂
      cases b with
      | nil => rfl
      | cons y bs => simp [PathLe, pathLeB] at h₂
    | cons x as ih =>
      intro b h₁ h₂
      cases b with
      | nil => simp [PathLe, pathLeB] at h₁
      | cons y bs =>
        by_cases hxy : strLt x y = true
        · simp [PathLe, pathLeB, strLt_asymm hxy, hxy] at h₂
        · by_cases hyx : strLt y x = true
          · simp [PathLe, pathLeB, hxy, hyx] at h₁
          · have he : x = y := strLt_eq (by simpa using hxy) (by simpa using hyx)
            subst he
            simp only [PathLe, pathLeB, if_neg hxy] at h₁ h₂
            rw [ih bs h₁ h₂]

instance : IsTrans (List String) PathLe where
  trans := by
    intro a
    induction a with
    | nil => intro b c _ _; rfl
    | cons x as ih =>
      intro b c h₁ h₂
      cases b with
      | nil => simp [PathLe, pathLeB] at h₁
      | cons y bs =>
        cases c with
        | nil => simp [PathLe, pathLeB] at h₂
        | cons z cs =>
          by_cases hxy : strLt x y = true
          · by_cases hyz : strLt y z = true
            · simp [PathLe, pathLeB, strLt_trans hxy hyz]
            · by_cases hzy : strLt z y = true
              · simp [PathLe, pathLeB, hyz, hzy] at h₂
              · have he : y = z := strLt_eq (by simpa using hyz) (by simpa using hzy)
                subst he
                simp [PathLe, pathLeB, hxy]
          · by_cases hyx : strLt y x = true
            · simp [PathLe, pathLeB, hxy, hyx] at h₁
            · have he : x = y := strLt_eq (by simpa using hxy) (by simpa using hyx)
              subst he
              simp only [PathLe, pathLeB, if_neg hxy] at h₁
              by_cases hxz : strLt x z = true
              · simp [PathLe, pathLeB, hxz]
              · by_cases hzx : strLt z x = true
                · simp [PathLe, pathLeB, hxz, hzx] at h₂
                · simp only [PathLe, pathLeB, if_neg hxz, if_neg hzx] at h₂ ⊢
                  exact ih bs cs h₁ h₂

/-! ### Claim theorems -/

/-- Claim C1 (counterexample): the claim fails for `write_files`'s archive
loop, which excludes by base name (`path.name != aia_path.name`): a file
`backup/DigitalGardenController.aia` under the project directory is a
regular file distinct from the archive path, yet it is left out of the
archive. -/
theorem c1_write_files_name_exclusion_counterexample :
    ["backup", "DigitalGardenController.aia"] ∈ c1ex ∧
    ["backup", "DigitalGardenController.aia"] ≠ [aiaFileName] ∧
    ["backup", "DigitalGardenController.aia"] ∉ write_files_entries c1ex := by
  decide

/-- Claim C1 (amended): for every duplicate-free project directory state,
the archive written by the packaging entry point's `write_aia` contains
exactly the regular files other than the archive path itself, each exactly
once under its project-relative path; the archive written by the generator
entry point's `write_files` contains exactly the regular files whose base
name differs from the archive's file name, each exactly once. -/
theorem c1_archive_members_amended (files : List (List String)) (hnd : files.Nodup) :
    (∀ p, p ∈ write_aia_entries files ↔ (p ∈ files ∧ p ≠ [aiaFileName])) ∧
    (write_aia_entries files).Nodup ∧
    (∀ p, p ∈ write_files_entries files ↔ (p ∈ files ∧ p.getLastD "" ≠ aiaFileName)) ∧
    (write_files_entries files).Nodup := by
  have hperm := List.perm_insertionSort PathLe files
  refine ⟨?_, ?_, ?_, ?_⟩
  · intro p
    simp [write_aia_entries, List.mem_filter, hperm.mem_iff]
  · exact (hperm.nodup_iff.mpr hnd).filter _
  · intro p
    simp [write_files_entries, List.mem_filter, hperm.mem_iff]
  · exact (hperm.nodup_iff.mpr hnd).filter _

/-- Claim C1 (witness): the amended statement evaluated on the concrete
state `c1ex`. -/
theorem c1_archive_members_amended_witness :
    c1ex.Nodup ∧
    ((∀ p, p ∈ write_aia_entries c1ex ↔ (p ∈ c1ex ∧ p ≠ [aiaFileName])) ∧
     (write_aia_entries c1ex).Nodup ∧
     (∀ p, p ∈ write_files_entries c1ex ↔ (p ∈ c1ex ∧ p.getLastD "" ≠ aiaFileName)) ∧
     (write_files_entries c1ex).Nodup) :=
  ⟨by decide, c1_archive_members_amended c1ex (by decide)⟩

/-- Claim C2: at the fixed midpoint input 50, the five effect-parameter
defaults computed by `round(base ± range*input/100)` (Python rounds half to
even) equal the documented literals 1025, 1025, 10, 105 and 50. -/
theorem c2_effect_parameter_defaults :
    blink_default = 1025 ∧ chase_default = 1025 ∧ fade_default = 10 ∧
    rainbow_default = 105 ∧ twinkle_default = 50 := by
  refine ⟨?_, ?_, ?_, ?_, ?_⟩
  · unfold blink_default pyRound SLIDER_DEFAULT
    norm_num
  · unfold chase_default pyRound SLIDER_DEFAULT
    norm_num
  · unfold fade_default pyRound SLIDER_DEFAULT
    norm_num
  · unfold rainbow_default pyRound SLIDER_DEFAULT
    norm_num
  · unfold twinkle_default pyRound SLIDER_DEFAULT
    norm_num

/-- Claim C3: the generators are deterministic — their output does not
depend on the ambient environment (clock, randomness); the only run-local
state is the identifier counter, re-seeded inside each call
(`ComponentBuilder()` at 1000, `BlockFactory()` at 0), so any two
invocations yield identical strings. -/
theorem c3_generators_deterministic :
    ∀ (e₁ e₂ : Env), build_scm e₁ = build_scm e₂ ∧ build_bky e₁ = build_bky e₂ :=
  fun _ _ => ⟨rfl, rfl⟩

/-- Claim C4: when the conflict query runs (so the required files were
present) and reports any conflicted path other than the archive path, the
run returns the world unchanged — no generated file written or modified —
together with a single `ConflictError` whose message lists every gating
conflict path. -/
theorem c4_conflict_gate (w : World)
    (hreq : ∀ p ∈ REQUIRED_FILES, p ∈ fileNames w)
    (hc : gating_conflicts w ≠ []) :
    main w = (w, some (Err.conflict (
      "Resolve the Git merge conflicts below before packaging the MIT App Inventor project:\n"
        ++ String.intercalate "\n" ((gating_conflicts w).map (fun p => "  - " ++ relString p))
        ++ "\nOpen each file, remove the `<<<<<<<`, `=======`, and `>>>>>>>` markers, choose the correct blocks of text, then run:\n"
        ++ "  git add <each resolved file>\n"
        ++ "  python scripts/generate_appinventor_project.py\n"
        ++ "Once the helper succeeds you can commit and continue your merge or rebase."))) := by
  have h1 : ensure_required_files w = none := by
    have hm : missing_files w = [] := by
      rw [missing_files, List.filter_eq_nil_iff]
      intro a ha
      simpa using hreq a ha
    simp [ensure_required_files, hm]
  have h2 : ensure_no_conflicts w
      = some (Err.conflict (conflict_message (gating_conflicts w))) := by
    rw [ensure_no_conflicts, if_neg]
    simp [List.isEmpty_iff, hc]
  rw [main, h1, h2]
  rfl

/-- Claim C4 (witness): the gate evaluated on a concrete world with both
descriptors present and one conflicted file. -/
theorem c4_conflict_gate_witness :
    main c4wit_world = (c4wit_world, some (Err.conflict (
      "Resolve the Git merge conflicts below before packaging the MIT App Inventor project:\n"
        ++ String.intercalate "\n"
          ((gating_conflicts c4wit_world).map (fun p => "  - " ++ relString p))
        ++ "\nOpen each file, remove the `<<<<<<<`, `=======`, and `>>>>>>>` markers, choose the correct blocks of text, then run:\n"
        ++ "  git add <each resolved file>\n"
        ++ "  python scripts/generate_appinventor_project.py\n"
        ++ "Once the helper succeeds you can commit and continue your merge or rebase."))) :=
  c4_conflict_gate c4wit_world (by decide) (by decide)

/-- Claim C5: if either required descriptor is absent, the run returns the
world unchanged — the properties file, the marker asset and the archive are
untouched — together with a `FileNotFoundError` naming each missing path. -/
theorem c5_missing_descriptor_gate (w : World)
    (h : ∃ p ∈ REQUIRED_FILES, p ∉ fileNames w) :
    main w = (w, some (Err.fileNotFound
      ("The MIT App Inventor sources are incomplete. Make sure the following files exist:\n"
        ++ String.intercalate "\n"
          ((missing_files w).map (fun p => "  - " ++ pathString w.repoRoot p))
        ++ "\nIf they were deleted, restore them with `git checkout -- app_inventor`."))) := by
  obtain ⟨p, hp, hnp⟩ := h
  have hmem : p ∈ missing_files w := by
    rw [missing_files, List.mem_filter]
    exact ⟨hp, by simpa using hnp⟩
  have h1 : ensure_required_files w = some (Err.fileNotFound
      ("The MIT App Inventor sources are incomplete. Make sure the following files exist:\n"
        ++ String.intercalate "\n"
          ((missing_files w).map (fun pp => "  - " ++ pathString w.repoRoot pp))
        ++ "\nIf they were deleted, restore them with `git checkout -- app_inventor`.")) := by
    rw [ensure_required_files, if_neg]
    simp [List.isEmpty_iff]
    exact List.ne_nil_of_mem hmem
  rw [main, h1]

/-- Claim C5 (witness): the gate evaluated on a concrete world missing both
descriptors. -/
theorem c5_missing_descriptor_gate_witness :
    main c5wit_world = (c5wit_world, some (Err.fileNotFound
      ("The MIT App Inventor sources are incomplete. Make sure the following files exist:\n"
        ++ String.intercalate "\n"
          ((missing_files c5wit_world).map
            (fun p => "  - " ++ pathString c5wit_world.repoRoot p))
        ++ "\nIf they were deleted, restore them with `git checkout -- app_inventor`."))) :=
  c5_missing_descriptor_gate c5wit_world (by decide)

/-- Claim C6: both archive writers add members in lexical path order —
the member sequence is sorted, and it depends only on the set of enumerated
files: any two enumeration orders of the same files produce the same
member sequence. -/
theorem c6_archive_order_deterministic (l1 l2 : List (List String))
    (h : List.Perm l1 l2) :
    write_aia_entries l1 = write_aia_entries l2 ∧
    write_files_entries l1 = write_files_entries l2 ∧
    List.Sorted PathLe (write_aia_entries l1) ∧
    List.Sorted PathLe (write_files_entries l1) := by
  have key : List.insertionSort PathLe l1 = List.insertionSort PathLe l2 :=
    List.eq_of_perm_of_sorted
      ((List.perm_insertionSort _ l1).trans (h.trans (List.perm_insertionSort _ l2).symm))
      (List.sorted_insertionSort _ l1) (List.sorted_insertionSort _ l2)
  exact ⟨by simp [write_aia_entries, key], by simp [write_files_entries, key],
    (List.sorted_insertionSort _ _).filter _, (List.sorted_insertionSort _ _).filter _⟩

/-- Claim C6 (witness): the order statement evaluated on two concrete
enumeration orders of the same file set. -/
theorem c6_archive_order_deterministic_witness :
    write_aia_entries c6l1 = write_aia_entries c6l2 ∧
    write_files_entries c6l1 = write_files_entries c6l2 ∧
    List.Sorted PathLe (write_aia_entries c6l1) ∧
    List.Sorted PathLe (write_files_entries c6l1) :=
  c6_archive_order_deterministic c6l1 c6l2 (by decide)

/-- Claim C7 (code bug): in the `DisconnectButton.Click` handler the chain
X→Y→Z (X the `Disconnect` call `b50`, Y the `StatusLabel` reset `b52`, Z
the `CheckBoxRed` reset `b54`) is NOT nested as the claim states: X's
`next` wrapper holds Y and Z's `next` wrapper as siblings (children tags
`["block", "next"]`), and Y itself has no `next` child at all — because
`current = nxt(current, x)` appends each new wrapper to the previous
wrapper instead of the previous block.  The Initialize and slider chains
use the correct pattern, so the spec's nesting rule is the evident
intent. -/
theorem c7_disconnect_chain_nesting_bug :
    List.lookup "id" (childAt bky_root 4).attrs = some "b63" ∧
    List.lookup "id" disconnect_chain_first.attrs = some "b50" ∧
    disconnect_chain_wrapper.tag = "next" ∧
    disconnect_chain_wrapper.children.map XElem.tag = ["block", "next"] ∧
    List.lookup "id" (childAt disconnect_chain_wrapper 0).attrs = some "b52" ∧
    (childAt disconnect_chain_wrapper 0).children.map XElem.tag
      = ["mutation", "field", "field", "value"] ∧
    List.lookup "id" (childAt (childAt disconnect_chain_wrapper 1) 0).attrs = some "b54" := by
  decide

set_option maxRecDepth 100000 in
/-- Claim C8: every descriptor built by `ComponentBuilder.component`
receives `Uuid = str(counter + 1)` while the counter advances by one — so
identifiers are strictly increasing in construction order and unique — and
in the actual `build_scm` run seeded at base 1000 the counter ends at 1039
and the 39 descriptor uuids are exactly 1001…1039, pairwise distinct. -/
theorem c8_component_uuid_invariant :
    (∀ (u : Nat) (name type_ : String) (version : Nat)
        (props : List (String × String)) (children : List JVal),
      ((component name type_ version props children).run u).2 = u + 1 ∧
      ownUuid ((component name type_ version props children).run u).1
        = some (toString (u + 1))) ∧
    (scm_components.run 1000).2 = 1039 ∧
    List.Perm (uuidsOfList (scm_components.run 1000).1)
      ((List.range' 1001 39).map toString) ∧
    (uuidsOfList (scm_components.run 1000).1).Nodup := by
  refine ⟨?_, rfl, ?_, ?_⟩
  · intro u name type_ version props children
    constructor
    · rfl
    · cases hc : children.isEmpty <;>
        simp [component, next_uuid, ownUuid, hc, List.lookup]
  · decide
  · decide

set_option maxRecDepth 100000 in
/-- Claim C9 (code bug): `BlockFactory.new_block` does assign
`id = "b" ++ str(counter + 1)` with the counter advancing by one, so the
ids of created blocks are unique and strictly increasing; but the
serialized output of `build_bky` still contains duplicate ids, because the
`success_text` and `failure_text` elements of the `AfterPicking` handler
are appended to two parents each and are therefore serialized twice: id
`b41` occurs (at least) twice, and the document's id list is not
duplicate-free. -/
theorem c9_block_id_invariant_bug :
    (∀ (st : Nat) (type_ : String) (attrs : List (String × String)),
      ((new_block type_ none attrs).run st).2 = st + 1 ∧
      List.lookup "id" (((new_block type_ none attrs).run st).1).attrs
        = some ("b" ++ toString (st + 1))) ∧
    2 ≤ (blockIdsOf bky_root).count "b41" ∧
    ¬ (blockIdsOf bky_root).Nodup := by
  refine ⟨?_, ?_, ?_⟩
  · intro st type_ attrs
    constructor
    · rfl
    · simp [new_block, XElem.attrs, List.lookup]
  · decide
  · decide

set_option maxRecDepth 10000 in
/-- Claim C10: the `PROJECT_PROPERTIES` constant of the packaging entry
point and the `project_properties()` function of the generator entry point
produce character-identical text. -/
theorem c10_project_properties_equal : PROJECT_PROPERTIES = project_properties := rfl

end DG

